import Mathlib

/-!
Shallow embedding of the Surgery Risk Management application (src/app.py)
and proofs about its risk-scoring engine, classifier, mortality estimate,
presentation-layer factor breakdown, and the registration handler's
patient store.  Machine floats in the source only ever compare and combine
exactly representable values at the points the theorems touch, so rationals
stand in for Python floats; Python ints are modelled as ℤ.
-/

namespace SurgeryRisk

/-- Risk categories returned by `SurgeryRiskCalculator.get_risk_category`. -/
inductive RiskCategory where
  | Low
  | Moderate
  | High
  | Critical
deriving DecidableEq

/-- Age contribution inside `calculate_risk_score` (app.py lines 22-25):
age<18 adds 1, age<40 adds 2, age<65 adds 4, otherwise 7. -/
def ageFactor (age : ℤ) : ℤ :=
  if age < 18 then 1
  else if age < 40 then 2
  else if age < 65 then 4
  else 7

/-- BMI contribution inside `calculate_risk_score` (app.py lines 28-30),
including the source's branch order: `if bmi < 18.5`, `elif bmi > 30`,
`elif bmi > 35` (a branch the `bmi > 30` test shadows), else add nothing. -/
def bmiFactor (bmi : ℚ) : ℤ :=
  if bmi < 18.5 then 3
  else if bmi > 30 then 4
  else if bmi > 35 then 6
  else 0

/-- Comorbidity contribution (app.py line 33): `len(comorbidities) * 2`. -/
def comorbidityFactor (comorbidities : List String) : ℤ :=
  (comorbidities.length : ℤ) * 2

/-- Surgery-type contribution (app.py lines 36-39): the dictionary
`{"Minor": 1, "Moderate": 3, "Major": 6, "Complex": 9}` read with
`.get(surgery_type, 3)`, i.e. default 3 for any other key. -/
def surgeryFactor (surgeryType : String) : ℤ :=
  if surgeryType = "Minor" then 1
  else if surgeryType = "Moderate" then 3
  else if surgeryType = "Major" then 6
  else if surgeryType = "Complex" then 9
  else 3

/-- ASA contribution (app.py line 42): `asa_class * 2`. -/
def asaFactor (asaClass : ℤ) : ℤ :=
  asaClass * 2

/-- `SurgeryRiskCalculator.calculate_risk_score` (app.py lines 17-44):
the sum of the five factor contributions, capped at 30 by `min(score, 30)`. -/
def calculate_risk_score (age : ℤ) (bmi : ℚ) (comorbidities : List String)
    (surgeryType : String) (asaClass : ℤ) : ℤ :=
  min (ageFactor age + bmiFactor bmi + comorbidityFactor comorbidities +
    surgeryFactor surgeryType + asaFactor asaClass) 30

/-- `SurgeryRiskCalculator.get_risk_category` (app.py lines 46-51):
score ≤ 8 Low, ≤ 15 Moderate, ≤ 22 High, else Critical, paired with the
indicator glyph shown next to the category. -/
def get_risk_category (score : ℤ) : RiskCategory × String :=
  if score ≤ 8 then (RiskCategory.Low, "🟢")
  else if score ≤ 15 then (RiskCategory.Moderate, "🟡")
  else if score ≤ 22 then (RiskCategory.High, "🟠")
  else (RiskCategory.Critical, "🔴")

/-- Mortality estimate (app.py line 165): `min(risk_score * 0.5, 15)`.
Both 0.5 multiples of an integer score and 15 are exact in the source's
floats, so the rational model is exact. -/
def mortality_risk (score : ℤ) : ℚ :=
  min ((score : ℚ) * 0.5) 15

theorem bmiFactor_gt35 (b : ℚ) (hb : 35 < b) : bmiFactor b = 4 := by
  have h1 : ¬ b < 18.5 := by norm_num; linarith
  have h2 : b > 30 := by linarith
  simp [bmiFactor, h1, h2]

/-- C1: the source's `elif bmi > 35: score += 6` branch is unreachable —
any bmi above 35 (here 36.1, 40, 100) is also above 30, so the earlier
`elif bmi > 30` branch fires first and adds 4, never 6. -/
theorem bmi_dead_branch :
    bmiFactor 40 = 4 ∧ bmiFactor 40 ≠ 6 ∧
    bmiFactor (361 / 10) = 4 ∧ bmiFactor 100 = 4 :=
  ⟨by norm_num [bmiFactor], by norm_num [bmiFactor],
    bmiFactor_gt35 _ (by norm_num), bmiFactor_gt35 _ (by norm_num)⟩

/-- C4: `get_risk_category` partitions ℤ into four contiguous bands —
Low exactly when score ≤ 8, Moderate exactly on 9..15, High exactly on
16..22, Critical exactly when score ≥ 23 — and the boundary scores
8, 9, 15, 16, 22, 23 map to Low, Moderate, Moderate, High, High, Critical. -/
theorem classify_bands :
    (∀ s : ℤ,
      ((get_risk_category s).1 = RiskCategory.Low ↔ s ≤ 8) ∧
      ((get_risk_category s).1 = RiskCategory.Moderate ↔ 9 ≤ s ∧ s ≤ 15) ∧
      ((get_risk_category s).1 = RiskCategory.High ↔ 16 ≤ s ∧ s ≤ 22) ∧
      ((get_risk_category s).1 = RiskCategory.Critical ↔ 23 ≤ s)) ∧
    (get_risk_category 8).1 = RiskCategory.Low ∧
    (get_risk_category 9).1 = RiskCategory.Moderate ∧
    (get_risk_category 15).1 = RiskCategory.Moderate ∧
    (get_risk_category 16).1 = RiskCategory.High ∧
    (get_risk_category 22).1 = RiskCategory.High ∧
    (get_risk_category 23).1 = RiskCategory.Critical := by
  refine ⟨fun s => ?_, by decide, by decide, by decide, by decide, by decide, by decide⟩
  unfold get_risk_category
  split_ifs <;> simp_all <;> omega

/-- C4 witness: the band characterisation instantiated at the boundary
score 9, which lies in the Moderate band. -/
theorem classify_bands_witness :
    (get_risk_category 9).1 = RiskCategory.Moderate :=
  ((classify_bands.1 9).2.1).mpr (by norm_num)

/-- C6: the mortality estimate is `min(score * 0.5, 15)` by definition, is
monotonically non-decreasing in the score, and never exceeds 15. -/
theorem mortality_monotone_bounded (s₁ s₂ : ℤ) (h : s₁ ≤ s₂) :
    mortality_risk s₁ ≤ mortality_risk s₂ ∧
    (∀ s : ℤ, mortality_risk s = min ((s : ℚ) * 0.5) 15) ∧
    (∀ s : ℤ, mortality_risk s ≤ 15) := by
  refine ⟨?_, fun s => rfl, fun s => min_le_right _ _⟩
  have hc : (s₁ : ℚ) ≤ (s₂ : ℚ) := by exact_mod_cast h
  exact min_le_min (by nlinarith) le_rfl

/-- C6 witness: monotonicity and the 15 bound, instantiated at scores 4 ≤ 27. -/
theorem mortality_monotone_bounded_witness :
    mortality_risk 4 ≤ mortality_risk 27 ∧
    (∀ s : ℤ, mortality_risk s = min ((s : ℚ) * 0.5) 15) ∧
    (∀ s : ℤ, mortality_risk s ≤ 15) :=
  mortality_monotone_bounded 4 27 (by norm_num)

theorem ageFactor_ge_one (age : ℤ) : 1 ≤ ageFactor age := by
  unfold ageFactor; split_ifs <;> norm_num

theorem bmiFactor_nonneg (bmi : ℚ) : 0 ≤ bmiFactor bmi := by
  unfold bmiFactor; split_ifs <;> norm_num

theorem comorbidityFactor_nonneg (c : List String) : 0 ≤ comorbidityFactor c := by
  unfold comorbidityFactor; positivity

theorem surgeryFactor_ge_one (t : String) : 1 ≤ surgeryFactor t := by
  unfold surgeryFactor; split_ifs <;> norm_num

/-- C5: for ages 1..120 and ASA classes 1..5 (any bmi, any comorbidity list,
any surgery-type string), the computed risk score lies in [0, 30], and the
computation is deterministic — equal inputs give equal outputs. -/
theorem score_in_range_deterministic (age : ℤ) (bmi : ℚ) (c : List String)
    (t : String) (asa : ℤ) (hage₁ : 1 ≤ age) (hage₂ : age ≤ 120)
    (hasa₁ : 1 ≤ asa) (hasa₂ : asa ≤ 5) :
    0 ≤ calculate_risk_score age bmi c t asa ∧
    calculate_risk_score age bmi c t asa ≤ 30 ∧
    (∀ age' bmi' c' t' asa', age' = age → bmi' = bmi → c' = c → t' = t →
      asa' = asa →
      calculate_risk_score age' bmi' c' t' asa' =
        calculate_risk_score age bmi c t asa) := by
  refine ⟨?_, min_le_right _ _, ?_⟩
  · have h₁ := ageFactor_ge_one age
    have h₂ := bmiFactor_nonneg bmi
    have h₃ := comorbidityFactor_nonneg c
    have h₄ := surgeryFactor_ge_one t
    have h₅ : 2 ≤ asaFactor asa := by unfold asaFactor; omega
    exact le_min (by omega) (by norm_num)
  · intro age' bmi' c' t' asa' h1 h2 h3 h4 h5
    rw [h1, h2, h3, h4, h5]

/-- C5 witness: the spec's worked example — age 70, bmi 32, two
comorbidities, Major surgery, ASA 3 — has its score inside [0, 30]. -/
theorem score_in_range_deterministic_witness :
    0 ≤ calculate_risk_score 70 32 ["Diabetes", "Hypertension"] "Major" 3 ∧
    calculate_risk_score 70 32 ["Diabetes", "Hypertension"] "Major" 3 ≤ 30 ∧
    (∀ age' bmi' c' t' asa', age' = 70 → bmi' = (32 : ℚ) →
      c' = ["Diabetes", "Hypertension"] → t' = "Major" → asa' = (3 : ℤ) →
      calculate_risk_score age' bmi' c' t' asa' =
        calculate_risk_score 70 32 ["Diabetes", "Hypertension"] "Major" 3) :=
  score_in_range_deterministic 70 32 ["Diabetes", "Hypertension"] "Major" 3
    (by norm_num) (by norm_num) (by norm_num) (by norm_num)

/-- C9: with age ≥ 1 and ASA class in 1..5, the age factor is at least 1,
the surgery factor at least 1, and the ASA factor at least 2, so the score
is at least 4 and the mortality estimate at least 2.0. -/
theorem score_at_least_four (age : ℤ) (bmi : ℚ) (c : List String)
    (t : String) (asa : ℤ) (hage : 1 ≤ age) (hasa₁ : 1 ≤ asa) (hasa₂ : asa ≤ 5) :
    4 ≤ calculate_risk_score age bmi c t asa ∧
    2 ≤ mortality_risk (calculate_risk_score age bmi c t asa) := by
  have h₁ := ageFactor_ge_one age
  have h₂ := bmiFactor_nonneg bmi
  have h₃ := comorbidityFactor_nonneg c
  have h₄ := surgeryFactor_ge_one t
  have h₅ : 2 ≤ asaFactor asa := by unfold asaFactor; omega
  have hs : 4 ≤ calculate_risk_score age bmi c t asa :=
    le_min (by omega) (by norm_num)
  refine ⟨hs, le_min ?_ (by norm_num)⟩
  have : (4 : ℚ) ≤ ((calculate_risk_score age bmi c t asa : ℤ) : ℚ) := by
    exact_mod_cast hs
  nlinarith

/-- C9 witness: the minimal-input patient — age 25, bmi 22, no
comorbidities, Minor surgery, ASA 1 — scores at least 4 with mortality
estimate at least 2.0. -/
theorem score_at_least_four_witness :
    4 ≤ calculate_risk_score 25 22 [] "Minor" 1 ∧
    2 ≤ mortality_risk (calculate_risk_score 25 22 [] "Minor" 1) :=
  score_at_least_four 25 22 [] "Minor" 1 (by norm_num) (by norm_num) (by norm_num)

/-- C3 counterexample: a comorbidity list holding "Diabetes" twice has one
distinct comorbidity, yet `calculate_risk_score`'s comorbidity contribution
is `len * 2 = 4`, not `2 × 1 = 2`: duplicates do not collapse. -/
theorem comorb_duplicates_do_not_collapse :
    comorbidityFactor ["Diabetes", "Diabetes"] = 4 ∧
    (["Diabetes", "Diabetes"] : List String).dedup.length = 1 ∧
    comorbidityFactor ["Diabetes", "Diabetes"] ≠
      2 * ((["Diabetes", "Diabetes"] : List String).dedup.length : ℤ) := by
  refine ⟨by decide, by decide, by decide⟩

/-- C3 amended: for every comorbidity list the contribution is 2 × the
length of the list (duplicate entries each count); when the list is
duplicate-free — as the registration form's multiselect guarantees — this
equals 2 × the number of distinct comorbidities. -/
theorem comorb_contribution (c : List String) :
    comorbidityFactor c = 2 * (c.length : ℤ) ∧
    (c.Nodup → comorbidityFactor c = 2 * (c.dedup.length : ℤ)) := by
  constructor
  · unfold comorbidityFactor; ring
  · intro h
    rw [List.dedup_eq_self.mpr h]; unfold comorbidityFactor; ring

/-- C3 amended witness: the length form evaluated on a duplicate-bearing
list, and the distinct-count form on a duplicate-free list. -/
theorem comorb_contribution_witness :
    comorbidityFactor ["Diabetes", "Diabetes"] =
      2 * ((["Diabetes", "Diabetes"] : List String).length : ℤ) ∧
    comorbidityFactor ["Diabetes", "Hypertension"] =
      2 * ((["Diabetes", "Hypertension"] : List String).dedup.length : ℤ) :=
  ⟨(comorb_contribution ["Diabetes", "Diabetes"]).1,
    (comorb_contribution ["Diabetes", "Hypertension"]).2 (by decide)⟩

/-- The registration form's field set (app.py lines 78-101).  The surgery
date is an opaque integer day stamp; the wall-clock `registration_date`
(line 126) is outside a pure embedding and is not used by any claim. -/
structure Fields where
  name : String
  age : ℤ
  gender : String
  height : ℚ
  weight : ℚ
  surgeryDate : ℤ
  surgeryType : String
  surgeon : String
  asaClass : ℤ
  emergency : Bool
  comorbidities : List String
  allergies : String
  medications : String
  notes : String
deriving DecidableEq

/-- Rounding to two decimals as in `round(bmi, 2)` (app.py line 116);
exact-half ties (where Python rounds half-to-even) occur at no input any
claim touches. -/
def round2 (q : ℚ) : ℚ :=
  (Int.floor (q * 100 + 1 / 2) : ℚ) / 100

/-- A stored patient record (app.py lines 109-127): the assigned id, the
derived bmi, and the submitted form fields. -/
structure Patient where
  id : ℕ
  bmi : ℚ
  fields : Fields
deriving DecidableEq

/-- Record construction (app.py lines 106-127): `id = len(patients) + 1`
and `bmi = round(weight / ((height/100) ** 2), 2)`. -/
def mkPatient (store : List Patient) (f : Fields) : Patient :=
  { id := store.length + 1
    bmi := round2 (f.weight / ((f.height / 100) ^ 2))
    fields := f }

/-- Outcome of one form submission.  The source handler (app.py line 105,
`if submitted and name:`) either registers or falls through with no message;
the `validationError` constructor exists only so the spec's claimed error
outcome can be stated and compared against what the code actually does. -/
inductive RegResult where
  | registered (id : ℕ)
  | validationError
  | silentlyIgnored
deriving DecidableEq

/-- The registration submission handler (app.py lines 103-130): with a
non-empty name it appends `mkPatient` and reports success with the new id;
with an empty name it does nothing at all. -/
def submitRegistration (store : List Patient) (f : Fields) :
    List Patient × RegResult :=
  if f.name = "" then (store, RegResult.silentlyIgnored)
  else (store ++ [mkPatient store f], RegResult.registered (store.length + 1))

/-- Iterates `submitRegistration` over a sequence of form submissions,
returning the final store and the ids assigned by the successful ones; the
two branches are exactly the handler's two outcomes. -/
def submitMany (store : List Patient) : List Fields → List Patient × List ℕ
  | [] => (store, [])
  | f :: fs =>
    if f.name = "" then submitMany store fs
    else
      ((submitMany (store ++ [mkPatient store f]) fs).1,
        (store.length + 1) :: (submitMany (store ++ [mkPatient store f]) fs).2)

theorem submitMany_ids_lb (fs : List Fields) (store : List Patient) :
    ∀ i ∈ (submitMany store fs).2, store.length < i := by
  induction fs generalizing store with
  | nil => intro i hi; simp [submitMany] at hi
  | cons f fs ih =>
    intro i hi
    by_cases h : f.name = ""
    · rw [submitMany, if_pos h] at hi
      exact ih store i hi
    · rw [submitMany, if_neg h] at hi
      simp only [List.mem_cons] at hi
      rcases hi with rfl | hi
      · omega
      · have := ih (store ++ [mkPatient store f]) i hi
        simp only [List.length_append, List.length_singleton] at this
        omega

theorem submitMany_ids_strict_incr (fs : List Fields) (store : List Patient) :
    ((submitMany store fs).2).Pairwise (· < ·) := by
  induction fs generalizing store with
  | nil => simp [submitMany]
  | cons f fs ih =>
    by_cases h : f.name = ""
    · rw [submitMany, if_pos h]
      exact ih store
    · rw [submitMany, if_neg h]
      refine List.Pairwise.cons ?_ (ih _)
      intro i hi
      have := submitMany_ids_lb fs (store ++ [mkPatient store f]) i hi
      simp only [List.length_append, List.length_singleton] at this
      omega

/-- C7: a successful registration (non-empty name) assigns the id
`count + 1` and appends the new record, and across any sequence of form
submissions the assigned ids are strictly increasing, hence unique. -/
theorem insert_ids_sequential (store : List Patient) (f : Fields)
    (fs : List Fields) (h : f.name ≠ "") :
    submitRegistration store f =
      (store ++ [mkPatient store f], RegResult.registered (store.length + 1)) ∧
    ((submitMany store fs).2).Pairwise (· < ·) :=
  ⟨by simp [submitRegistration, h], submitMany_ids_strict_incr fs store⟩

/-- A concrete registration form submission used by the witnesses. -/
def sampleFields : Fields :=
  { name := "Asha Rao", age := 70, gender := "Female", height := 170,
    weight := 92, surgeryDate := 0, surgeryType := "Major",
    surgeon := "Dr Lee", asaClass := 3, emergency := false,
    comorbidities := ["Diabetes", "Hypertension"], allergies := "",
    medications := "", notes := "" }

/-- The same submission with the required name left blank. -/
def emptyNameFields : Fields :=
  { sampleFields with name := "" }

/-- C7 witness: registering into an empty store assigns id 1 and appends;
two successive submissions get strictly increasing ids. -/
theorem insert_ids_sequential_witness :
    submitRegistration [] sampleFields =
      ([mkPatient [] sampleFields], RegResult.registered 1) ∧
    ((submitMany [] [sampleFields, sampleFields]).2).Pairwise (· < ·) :=
  insert_ids_sequential [] sampleFields [sampleFields, sampleFields] (by decide)

/-- C8 counterexample: submitting with an empty name leaves the store
unchanged but reports no ValidationError — the handler's guard simply
skips registration silently, with no feedback of any kind. -/
theorem empty_name_no_error_reported :
    submitRegistration [] emptyNameFields = ([], RegResult.silentlyIgnored) ∧
    (submitRegistration [] emptyNameFields).2 ≠ RegResult.validationError := by
  constructor <;> decide

/-- C8 amended: registering with an empty name leaves the Store unchanged —
same size and contents, no record appended — but no ValidationError is
reported to the caller: the submission is silently ignored. -/
theorem empty_name_store_unchanged (store : List Patient) (f : Fields)
    (h : f.name = "") :
    submitRegistration store f = (store, RegResult.silentlyIgnored) ∧
    (submitRegistration store f).1.length = store.length := by
  constructor <;> simp [submitRegistration, h]

/-- C8 amended witness: a blank-name submission against a one-patient store
changes nothing and is silently ignored. -/
theorem empty_name_store_unchanged_witness :
    submitRegistration [mkPatient [] sampleFields] emptyNameFields =
      ([mkPatient [] sampleFields], RegResult.silentlyIgnored) ∧
    (submitRegistration [mkPatient [] sampleFields] emptyNameFields).1.length =
      [mkPatient [] sampleFields].length :=
  empty_name_store_unchanged [mkPatient [] sampleFields] emptyNameFields (by decide)

/-- Presentation-layer surgery-complexity lookup (app.py line 175): direct
dictionary indexing `{'Minor': 1, 'Moderate': 3, 'Major': 6, 'Complex': 9}`
subscripted by the surgery type with no default, so an unknown key raises
KeyError — modelled as `none`. -/
def surgeryComplexityIndex (surgeryType : String) : Option ℤ :=
  if surgeryType = "Minor" then some 1
  else if surgeryType = "Moderate" then some 3
  else if surgeryType = "Major" then some 6
  else if surgeryType = "Complex" then some 9
  else none

/-- Presentation-layer age factor (app.py line 172): `min(age // 10, 7)`;
`Int.ediv` coincides with Python floor division for the divisor 10. -/
def ageFactorDisplay (age : ℤ) : ℤ :=
  min (Int.ediv age 10) 7

/-- Presentation-layer BMI factor (app.py line 173):
`4 if bmi > 30 else (3 if bmi < 18.5 else 1)`. -/
def bmiFactorDisplay (bmi : ℚ) : ℤ :=
  if bmi > 30 then 4 else if bmi < 18.5 then 3 else 1

/-- The `factors` mapping of the Risk Factor Analysis section (app.py lines
171-177); it fails (KeyError, modelled as `none`) exactly when the direct
surgery-complexity indexing fails. -/
def computeFactorsDisplay (age : ℤ) (bmi : ℚ) (c : List String)
    (surgeryType : String) (asa : ℤ) : Option (List (String × ℤ)) :=
  match surgeryComplexityIndex surgeryType with
  | none => none
  | some s =>
    some [("Age Factor", ageFactorDisplay age),
      ("BMI Factor", bmiFactorDisplay bmi),
      ("Comorbidities", (c.length : ℤ) * 2),
      ("Surgery Complexity", s),
      ("ASA Class", asa * 2)]

/-- C10: for a surgery type outside the four enum values the factor
breakdown fails (KeyError, `none`) while `calculate_risk_score`'s lookup
defaults the surgery contribution to 3 and succeeds; for the four enum
values the direct indexing succeeds with the same value the defaulted
lookup uses, so the breakdown's error branch is unreachable. -/
theorem breakdown_keyerror_vs_score (age : ℤ) (bmi : ℚ) (c : List String)
    (asa : ℤ) (t : String) :
    (t ∉ (["Minor", "Moderate", "Major", "Complex"] : List String) →
      computeFactorsDisplay age bmi c t asa = none ∧ surgeryFactor t = 3) ∧
    (t ∈ (["Minor", "Moderate", "Major", "Complex"] : List String) →
      ∃ v, surgeryComplexityIndex t = some v ∧ surgeryFactor t = v ∧
        (computeFactorsDisplay age bmi c t asa).isSome = true) := by
  constructor
  · intro h
    simp only [List.mem_cons, List.not_mem_nil, or_false, not_or] at h
    obtain ⟨h1, h2, h3, h4⟩ := h
    simp [computeFactorsDisplay, surgeryComplexityIndex, surgeryFactor,
      h1, h2, h3, h4]
  · intro h
    simp only [List.mem_cons, List.not_mem_nil, or_false] at h
    rcases h with rfl | rfl | rfl | rfl <;>
      simp [computeFactorsDisplay, surgeryComplexityIndex, surgeryFactor]

/-- C10 witness: the unknown type "Spinal" makes the breakdown fail while
the score's lookup yields the default 3; the enum value "Major" indexes
successfully with the same value 6 in both paths. -/
theorem breakdown_keyerror_vs_score_witness :
    (computeFactorsDisplay 50 22 [] "Spinal" 2 = none ∧
      surgeryFactor "Spinal" = 3) ∧
    (∃ v, surgeryComplexityIndex "Major" = some v ∧ surgeryFactor "Major" = v ∧
      (computeFactorsDisplay 50 22 [] "Major" 2).isSome = true) :=
  ⟨(breakdown_keyerror_vs_score 50 22 [] 2 "Spinal").1 (by decide),
    (breakdown_keyerror_vs_score 50 22 [] 2 "Major").2 (by decide)⟩

end SurgeryRisk
